import Mathlib

/-!
Shallow embedding of the pre-template-nest-service backend: the JWT
token issuer and verifier, the auth flow (login and refresh), the users
and todos services, and the global response interceptor.
-/

mutual
/-- A JavaScript value, as far as the response interceptor inspects it. -/
inductive JSValue where
  | vNull
  | vUndefined
  | vBool (b : Bool)
  | vNum (n : Int)
  | vStr (s : String)
  | vObj (fields : JSFields)
deriving DecidableEq, Repr

/-- Field list of a JavaScript object: ordered key and value pairs. -/
inductive JSFields where
  | nil
  | cons (key : String) (val : JSValue) (rest : JSFields)
deriving DecidableEq, Repr
end

/-- Looks a key up in an object field list: the JS semantics of reading a
named property off a plain object. -/
def JSFields.lookup : JSFields → String → Option JSValue
  | .nil, _ => none
  | .cons k v rest, key => if k == key then some v else rest.lookup key

/-- Truthiness of a JavaScript value. -/
def JSValue.truthy : JSValue → Bool
  | .vNull => false
  | .vUndefined => false
  | .vBool b => b
  | .vNum n => n != 0
  | .vStr s => s != ""
  | .vObj _ => true

instance {e a : Type} [DecidableEq e] [DecidableEq a] : DecidableEq (Except e a) := fun x y =>
  match x, y with
  | .ok u, .ok v =>
    if h : u = v then isTrue (by rw [h]) else isFalse fun hh => h (Except.ok.inj hh)
  | .error u, .error v =>
    if h : u = v then isTrue (by rw [h]) else isFalse fun hh => h (Except.error.inj hh)
  | .ok _, .error _ => isFalse fun hh => Except.noConfusion hh
  | .error _, .ok _ => isFalse fun hh => Except.noConfusion hh

/-- Failure raised by evaluating a JavaScript expression: reading a
property of null or undefined raises a TypeError. -/
inductive JSError where
  | typeError
deriving DecidableEq, Repr

/-- Strict property access `v.k`: raises TypeError when the receiver is
null or undefined; yields undefined for a missing field or a primitive
receiver. -/
def JSValue.get : JSValue → String → Except JSError JSValue
  | .vNull, _ => .error .typeError
  | .vUndefined, _ => .error .typeError
  | .vObj fs, k => .ok ((fs.lookup k).getD .vUndefined)
  | _, _ => .ok .vUndefined

/-- Optional-chaining property access `v?.k`: yields undefined when the
receiver is null or undefined, a missing field, or a primitive receiver. -/
def JSValue.getOpt : JSValue → String → JSValue
  | .vNull, _ => .vUndefined
  | .vUndefined, _ => .vUndefined
  | .vObj fs, k => (fs.lookup k).getD .vUndefined
  | _, _ => .vUndefined

/-- The JavaScript `a || b` operator. -/
def jsOr (a b : JSValue) : JSValue := if a.truthy then a else b

/-- The JavaScript `a && b` operator. -/
def jsAnd (a b : JSValue) : JSValue := if a.truthy then b else a

/-- The JavaScript `!a` operator. -/
def jsNot (a : JSValue) : JSValue := .vBool (!a.truthy)

/-- The envelope emitted by the response interceptor on the success path:
statusCode, message, data and meta, exactly as the returned object literal. -/
structure SuccessEnvelope where
  statusCode : JSValue
  message : JSValue
  data : JSValue
  meta : JSValue
deriving DecidableEq, Repr

/-- The envelope emitted by the response interceptor on the failure path. -/
structure ErrorEnvelope where
  statusCode : JSValue
  message : JSValue
  error : JSValue
  data : JSValue
deriving DecidableEq, Repr

/-- Success path of ResponseInterceptor.intercept, from src/ResponseInterceptor:
localsMessage models response.locals.message; respStatus models the
response statusCode already set on the response object. The body mirrors
the map callback: message from data.message with a strict access
(throws when data is null or undefined), then the ternary chain for the
data field, and an optional-chained meta. -/
def ResponseInterceptor.onSuccess (localsMessage respStatus data : JSValue) :
    Except JSError SuccessEnvelope :=
  let message := jsOr localsMessage (.vStr "Success")
  let statusCode := jsOr respStatus (.vNum 200)
  match data.get "message" with
  | .error e => .error e
  | .ok dmsg =>
    .ok { statusCode := statusCode
          message := jsOr dmsg message
          data :=
            if (data.getOpt "data").truthy then data.getOpt "data"
            else if (jsAnd (data.getOpt "message") (jsNot (data.getOpt "data"))).truthy then
              .vUndefined
            else data
          meta := data.getOpt "meta" }

/-- Failure path of ResponseInterceptor.intercept, from src/ResponseInterceptor:
the catchError callback, normalizing any thrown value into the error
envelope with null data. -/
def ResponseInterceptor.onError (error : JSValue) : ErrorEnvelope :=
  let status := jsOr (error.getOpt "status") (.vNum 500)
  let message :=
    jsOr (jsOr ((error.getOpt "response").getOpt "message") (error.getOpt "message"))
      (.vStr "Internal server error")
  { statusCode := status
    message := message
    error := jsOr (jsOr ((error.getOpt "response").getOpt "error") (error.getOpt "name"))
      (.vStr "Error")
    data := .vNull }

/-- The token payload built by AuthService: id and email of the user. -/
structure Payload where
  id : Nat
  email : String
deriving DecidableEq, Repr

/-- A signed JWT, abstractly: the serialized payload, the issue and expiry
times in seconds, and the secret that produced the signature. Recording
the secret models an ideal signature scheme: a signature checks out under
exactly the secret that created it. -/
structure SignedJwt where
  payload : Payload
  iat : Nat
  exp : Nat
  secret : String
deriving DecidableEq, Repr

/-- A bearer token string: either a well-formed signed JWT or an arbitrary
string that does not parse as one. -/
inductive Token where
  | signed (t : SignedJwt)
  | garbage (s : String)
deriving DecidableEq, Repr

/-- The ways verification of a token can fail. -/
inductive VerifyError where
  | invalidSignature
  | expired
  | malformed
deriving DecidableEq, Repr

/-- JwtService.sign payload with a secret and an expiresIn ttl, at clock
time now (seconds): embeds a ttl-derived expiry. -/
def JwtService.sign (p : Payload) (secret : String) (ttl : Nat) (now : Nat) : Token :=
  .signed { payload := p, iat := now, exp := now + ttl, secret := secret }

/-- JwtService.verify token against a secret at clock time now: rejects
structurally invalid tokens, tokens signed under a different secret, and
tokens whose expiry has passed; otherwise returns the embedded payload. -/
def JwtService.verify (t : Token) (secret : String) (now : Nat) :
    Except VerifyError Payload :=
  match t with
  | .garbage _ => .error .malformed
  | .signed s =>
    if s.secret ≠ secret then .error .invalidSignature
    else if s.exp ≤ now then .error .expired
    else .ok s.payload

/-- Configuration shape from src/config/config.interface.ts. -/
structure DatabaseConfig where
  host : String
  port : String
  username : String
  password : String
  database : String

/-- Configuration shape from src/config/config.interface.ts. -/
structure ConfigProps where
  api_key : String
  refresh_secret : String
  access_secret : String
  database : DatabaseConfig

/-- A row of the users table, from src/users/entities/user.entity.ts
(the todos relation is carried by the todos table itself). -/
structure UserEntity where
  id : Nat
  name : String
  email : String
  password : String
deriving DecidableEq, Repr

/-- A typed failure raised by a service, as a NestJS HttpException:
NotFoundException or UnauthorizedException with its message. -/
inductive AppError where
  | notFound (msg : String)
  | unauthorized (msg : String)
deriving DecidableEq, Repr

/-- HTTP status of a raised failure: 404 for NotFoundException, 401 for
UnauthorizedException. -/
def AppError.status : AppError → Nat
  | .notFound _ => 404
  | .unauthorized _ => 401

/-- Message carried by a raised failure. -/
def AppError.message : AppError → String
  | .notFound m => m
  | .unauthorized m => m

/-- Model of the external bcrypt primitive with the fixed cost factor 10
used by the repository: a one-way salted hash, abstracted as an injective
tagging of the plaintext (ideal hash: compare succeeds exactly on the
hashed plaintext). -/
def bcryptHash (plain : String) : String := "bcrypt10$" ++ plain

/-- Model of bcrypt.compare: recompute and compare. -/
def bcryptCompare (plain hashed : String) : Bool := hashed == bcryptHash plain

/-- UsersService.findUserByEmailAndPassword from src/users/users.service.ts:
find the user by email, raise NotFoundException when absent, then check
the password with bcrypt.compare and raise UnauthorizedException on
mismatch. The users list models the users repository. -/
def UsersService.findUserByEmailAndPassword (users : List UserEntity)
    (email password : String) : Except AppError UserEntity :=
  match users.find? (fun u => u.email == email) with
  | none => .error (.notFound "User not found")
  | some user =>
    if bcryptCompare password user.password then .ok user
    else .error (.unauthorized "Invalid password")

/-- UsersService.findUserById from src/users/users.service.ts. -/
def UsersService.findUserById (users : List UserEntity) (id : Nat) :
    Except AppError UserEntity :=
  match users.find? (fun u => u.id == id) with
  | none => .error (.notFound "User not found")
  | some user => .ok user

/-- The login request body. -/
structure LoginDto where
  email : String
  password : String

/-- The object returned by AuthService.login: both tokens. -/
structure TokenPair where
  accessToken : Token
  refreshToken : Token
deriving DecidableEq, Repr

/-- The object returned by AuthService.refreshToken: the new access token
and nothing else. -/
structure RefreshResult where
  accessToken : Token
deriving DecidableEq, Repr

/-- Seconds in the 1m expiresIn of access tokens. -/
def accessTtl : Nat := 60

/-- Seconds in the 7d expiresIn of refresh tokens. -/
def refreshTtl : Nat := 604800

/-- AuthService.login from src/auth/auth.service.ts: find the user by
email and password (failures propagate), build the payload from id and
email, sign an access token under the access secret with expiresIn 1m and
a refresh token under the refresh secret with expiresIn 7d. -/
def AuthService.login (users : List UserEntity) (cfg : ConfigProps) (now : Nat)
    (dto : LoginDto) : Except AppError TokenPair :=
  match UsersService.findUserByEmailAndPassword users dto.email dto.password with
  | .error e => .error e
  | .ok user =>
    let payload : Payload := { id := user.id, email := user.email }
    .ok { accessToken := JwtService.sign payload cfg.access_secret accessTtl now
          refreshToken := JwtService.sign payload cfg.refresh_secret refreshTtl now }

/-- AuthService.refreshToken from src/auth/auth.service.ts: verify the
presented token under the refresh secret, look the user up by the payload
id, and sign a fresh access token; the try/catch turns every failure in
the block into UnauthorizedException with message Invalid refresh token. -/
def AuthService.refreshToken (users : List UserEntity) (cfg : ConfigProps)
    (now : Nat) (tok : Token) : Except AppError RefreshResult :=
  match JwtService.verify tok cfg.refresh_secret now with
  | .error _ => .error (.unauthorized "Invalid refresh token")
  | .ok payload =>
    match UsersService.findUserById users payload.id with
    | .error _ => .error (.unauthorized "Invalid refresh token")
    | .ok user =>
      .ok { accessToken :=
              JwtService.sign { id := user.id, email := user.email }
                cfg.access_secret accessTtl now }

/-- A row of the todos table, from the todo entity (created_at in
seconds). -/
structure TodoEntity where
  id : Nat
  title : String
  description : String
  user_id : Nat
  created_at : Nat
deriving DecidableEq, Repr

/-- UpdateTodoDto: the partial form of CreateTodoDto, every field
optional. -/
structure UpdateTodoDto where
  title : Option String
  description : Option String

/-- TodosService.update from the todos service: find the todo by id, raise
NotFoundException when absent, otherwise apply the partial update to that
row. Returns the updated table and the success message; no caller identity
is taken and no ownership comparison happens. -/
def TodosService.update (todos : List TodoEntity) (id : Nat) (dto : UpdateTodoDto) :
    Except AppError (List TodoEntity × String) :=
  match todos.find? (fun t => t.id == id) with
  | none => .error (.notFound "Todo not found")
  | some _ =>
    .ok (todos.map (fun t =>
          if t.id == id then
            { t with title := dto.title.getD t.title
                     description := dto.description.getD t.description }
          else t),
        "Todo updated successfully")

/-- TodosService.remove from the todos service: find the todo by id, raise
NotFoundException when absent, otherwise delete the row. Returns the
updated table and the success message; no caller identity is taken and no
ownership comparison happens. -/
def TodosService.remove (todos : List TodoEntity) (id : Nat) :
    Except AppError (List TodoEntity × String) :=
  match todos.find? (fun t => t.id == id) with
  | none => .error (.notFound "Todo not found")
  | some _ => .ok (todos.filter (fun t => t.id != id), "Todo deleted successfully")

/-- Reads a named field of a value: some value only when the receiver is
an object that carries the field. -/
def JSValue.fieldOf : JSValue → String → Option JSValue
  | .vObj fs, k => fs.lookup k
  | _, _ => none

/-- Whether a value is an object carrying the named field with a truthy
value. -/
def truthyField (v : JSValue) (k : String) : Bool :=
  match v.fieldOf k with
  | some x => x.truthy
  | none => false

/-- Success envelope as the spec describes it, read literally: message is
the explicit message field of the result if present else Success, the
statusCode is the already set response status, the data field is the data
sub-field of the result if the result carries one, else absent when the
result carries a message field but no data field, else the whole result
object, and meta is passed through when present. -/
def claimedSuccessEnvelope (respStatus result : JSValue) : SuccessEnvelope :=
  { statusCode := if respStatus = .vUndefined then .vNum 200 else respStatus
    message := (result.fieldOf "message").getD (.vStr "Success")
    data :=
      match result.fieldOf "data" with
      | some d => d
      | none =>
        match result.fieldOf "message" with
        | some _ => .vUndefined
        | none => result
    meta := (result.fieldOf "meta").getD .vUndefined }

/-- Success envelope as the spec describes it, amended so that each field
selection follows JavaScript truthiness: a present but falsy field (empty
string, zero, false, null, undefined) is treated like an absent one in
the message and data precedence. -/
def claimedSuccessEnvelopeTruthy (respStatus result : JSValue) : SuccessEnvelope :=
  { statusCode := if respStatus = .vUndefined then .vNum 200 else respStatus
    message :=
      if truthyField result "message" then (result.fieldOf "message").getD .vUndefined
      else .vStr "Success"
    data :=
      if truthyField result "data" then (result.fieldOf "data").getD .vUndefined
      else if truthyField result "message" then .vUndefined
      else result
    meta := (result.fieldOf "meta").getD .vUndefined }

/-- Error envelope as the spec describes it, read literally: statusCode is
the status code of the failure with 500 when absent, message is the nested
response message of the failure, else its own message, else the fixed
fallback, error is the nested response error field, else the failure kind
name, else Error, and data is null. -/
def claimedErrorEnvelope (e : JSValue) : ErrorEnvelope :=
  let resp := (e.fieldOf "response").getD .vUndefined
  { statusCode := (e.fieldOf "status").getD (.vNum 500)
    message :=
      match resp.fieldOf "message" with
      | some m => m
      | none =>
        match e.fieldOf "message" with
        | some m => m
        | none => .vStr "Internal server error"
    error :=
      match resp.fieldOf "error" with
      | some v => v
      | none =>
        match e.fieldOf "name" with
        | some v => v
        | none => .vStr "Error"
    data := .vNull }

/-- Error envelope as the spec describes it, amended so that each fallback
follows JavaScript truthiness: a present but falsy field (empty string,
zero, false, null, undefined) is skipped like an absent one. -/
def claimedErrorEnvelopeTruthy (e : JSValue) : ErrorEnvelope :=
  let resp := (e.fieldOf "response").getD .vUndefined
  { statusCode :=
      if truthyField e "status" then (e.fieldOf "status").getD .vUndefined
      else .vNum 500
    message :=
      if truthyField resp "message" then (resp.fieldOf "message").getD .vUndefined
      else if truthyField e "message" then (e.fieldOf "message").getD .vUndefined
      else .vStr "Internal server error"
    error :=
      if truthyField resp "error" then (resp.fieldOf "error").getD .vUndefined
      else if truthyField e "name" then (e.fieldOf "name").getD .vUndefined
      else .vStr "Error"
    data := .vNull }

/-- A concrete configuration with distinct secrets, used by witnesses. -/
def cfg0 : ConfigProps :=
  { api_key := "key"
    refresh_secret := "refresh-secret-0"
    access_secret := "access-secret-0"
    database := { host := "h", port := "3306", username := "u",
                  password := "p", database := "d" } }

/-- A concrete users table with one registered user, used by witnesses. -/
def users0 : List UserEntity :=
  [{ id := 1, name := "Alice", email := "test@example.com",
     password := bcryptHash "password123" }]

/-- A concrete todos table, used by witnesses. -/
def todos0 : List TodoEntity :=
  [{ id := 5, title := "t", description := "d", user_id := 1, created_at := 0 }]

/-- Optional-chaining access agrees with reading the field and defaulting
to undefined. -/
theorem getOpt_eq_fieldOf (v : JSValue) (k : String) :
    v.getOpt k = (v.fieldOf k).getD .vUndefined := by
  cases v <;> rfl

/-- Truthiness of a field agrees with truthiness of the defaulted read. -/
theorem truthyField_eq (v : JSValue) (k : String) :
    truthyField v k = ((v.fieldOf k).getD .vUndefined).truthy := by
  unfold truthyField
  cases h : v.fieldOf k <;> simp [h, JSValue.truthy]

/-- A two-step or chain is the truthiness cascade. -/
theorem jsOr3_cases (a b c : JSValue) :
    jsOr (jsOr a b) c = if a.truthy then a else if b.truthy then b else c := by
  unfold jsOr
  by_cases ha : a.truthy <;> by_cases hb : b.truthy <;> simp [ha, hb]

example : (JSValue.vObj (.cons "a" (JSValue.vNum 1) .nil)).truthy = true := by decide

example :
    AuthService.refreshToken users0 cfg0 0 (.garbage "zzz") =
      .error (.unauthorized "Invalid refresh token") := by decide

example :
    AuthService.login users0 cfg0 7 { email := "test@example.com", password := "password123" } =
      .ok { accessToken := JwtService.sign ⟨1, "test@example.com"⟩ "access-secret-0" 60 7
            refreshToken := JwtService.sign ⟨1, "test@example.com"⟩ "refresh-secret-0" 604800 7 } := by
  decide

/-- C1: whenever AuthService.refreshToken fails, for any cause (garbage
token, expired token, token under the wrong secret, or the user lookup by
the payload id finding no user), the failure is the single
UnauthorizedException with message Invalid refresh token and status 401, so
the caller cannot distinguish the causes. -/
theorem refresh_failure_uniform (users : List UserEntity) (cfg : ConfigProps)
    (now : Nat) (tok : Token) (e : AppError)
    (h : AuthService.refreshToken users cfg now tok = .error e) :
    e = .unauthorized "Invalid refresh token" ∧ e.status = 401 ∧
      e.message = "Invalid refresh token" := by
  unfold AuthService.refreshToken at h
  split at h
  · injection h with h
    subst h
    exact ⟨rfl, rfl, rfl⟩
  · split at h
    · injection h with h
      subst h
      exact ⟨rfl, rfl, rfl⟩
    · exact Except.noConfusion h

/-- Witness for C1 at a concrete failing refresh call. -/
theorem refresh_failure_uniform_witness :
    AuthService.refreshToken users0 cfg0 0 (.garbage "zzz") =
      .error (.unauthorized "Invalid refresh token") ∧
    (AppError.unauthorized "Invalid refresh token").status = 401 :=
  ⟨by decide,
   (refresh_failure_uniform users0 cfg0 0 (.garbage "zzz")
      (.unauthorized "Invalid refresh token") (by decide)).2.1⟩

/-- C2: login fails with NotFoundException when no stored user has the
given email; when such a user exists but bcrypt.compare rejects the
password, it fails with UnauthorizedException, status 401, with a message
containing Invalid password; in both failure cases the result is an error,
so no tokens are issued. -/
theorem login_failure_cases (users : List UserEntity) (cfg : ConfigProps)
    (now : Nat) (dto : LoginDto) :
    (users.find? (fun u => u.email == dto.email) = none →
      AuthService.login users cfg now dto = .error (.notFound "User not found")) ∧
    (∀ user, users.find? (fun u => u.email == dto.email) = some user →
      bcryptCompare dto.password user.password = false →
      AuthService.login users cfg now dto = .error (.unauthorized "Invalid password") ∧
      (AppError.unauthorized "Invalid password").status = 401 ∧
      ∃ pre post,
        (AppError.unauthorized "Invalid password").message =
          pre ++ "Invalid password" ++ post) := by
  constructor
  · intro hnone
    unfold AuthService.login UsersService.findUserByEmailAndPassword
    rw [hnone]
  · intro user hsome hbad
    refine ⟨?_, rfl, "", "", rfl⟩
    unfold AuthService.login UsersService.findUserByEmailAndPassword
    rw [hsome]
    simp [hbad]

/-- Witness for C2 at a concrete store: an unknown email and a wrong
password against the stored user. -/
theorem login_failure_cases_witness :
    AuthService.login users0 cfg0 0 { email := "nobody@example.com", password := "x" } =
      .error (.notFound "User not found") ∧
    AuthService.login users0 cfg0 0 { email := "test@example.com", password := "wrong" } =
      .error (.unauthorized "Invalid password") :=
  ⟨(login_failure_cases users0 cfg0 0
      { email := "nobody@example.com", password := "x" }).1 (by decide),
   ((login_failure_cases users0 cfg0 0
      { email := "test@example.com", password := "wrong" }).2
      { id := 1, name := "Alice", email := "test@example.com",
        password := bcryptHash "password123" }
      (by decide) (by decide)).1⟩

/-- C3: on a matching email and password pair, login returns exactly the
pair of an access token signed under the access secret with the 1-minute
ttl and a refresh token signed under the refresh secret with the 7-day
ttl, both carrying the payload of id and email of the stored user, and
each verifies back to that payload under its own secret. -/
theorem login_success_tokens (users : List UserEntity) (cfg : ConfigProps)
    (now : Nat) (dto : LoginDto) (user : UserEntity)
    (h : UsersService.findUserByEmailAndPassword users dto.email dto.password = .ok user) :
    accessTtl = 60 ∧ refreshTtl = 7 * 24 * 60 * 60 ∧
    AuthService.login users cfg now dto =
      .ok { accessToken := JwtService.sign ⟨user.id, user.email⟩ cfg.access_secret accessTtl now
            refreshToken := JwtService.sign ⟨user.id, user.email⟩ cfg.refresh_secret refreshTtl now } ∧
    (∀ r, AuthService.login users cfg now dto = .ok r →
      JwtService.verify r.accessToken cfg.access_secret now = .ok ⟨user.id, user.email⟩ ∧
      JwtService.verify r.refreshToken cfg.refresh_secret now = .ok ⟨user.id, user.email⟩) := by
  have hlogin : AuthService.login users cfg now dto =
      .ok { accessToken := JwtService.sign ⟨user.id, user.email⟩ cfg.access_secret accessTtl now
            refreshToken := JwtService.sign ⟨user.id, user.email⟩ cfg.refresh_secret refreshTtl now } := by
    unfold AuthService.login
    rw [h]
  refine ⟨rfl, rfl, hlogin, ?_⟩
  intro r hr
  rw [hlogin] at hr
  injection hr with hr
  subst hr
  constructor
  · unfold JwtService.verify JwtService.sign
    simp [accessTtl]
  · unfold JwtService.verify JwtService.sign
    simp [refreshTtl]

/-- Witness for C3 at the concrete stored user and its credentials. -/
theorem login_success_tokens_witness :
    AuthService.login users0 cfg0 7 { email := "test@example.com", password := "password123" } =
      .ok { accessToken :=
              JwtService.sign ⟨1, "test@example.com"⟩ cfg0.access_secret accessTtl 7
            refreshToken :=
              JwtService.sign ⟨1, "test@example.com"⟩ cfg0.refresh_secret refreshTtl 7 } :=
  (login_success_tokens users0 cfg0 7
      { email := "test@example.com", password := "password123" }
      { id := 1, name := "Alice", email := "test@example.com",
        password := bcryptHash "password123" }
      (by decide)).2.2.1

/-- C4: a successful refresh verified some payload under the refresh
secret, found the user by that payload id, and returns a record whose one
and only field is a fresh access token signed under the access secret with
the 1-minute ttl over the id and email of that user: no refresh token is
part of the result. -/
theorem refresh_success_shape (users : List UserEntity) (cfg : ConfigProps)
    (now : Nat) (tok : Token) (r : RefreshResult)
    (h : AuthService.refreshToken users cfg now tok = .ok r) :
    ∃ p user, JwtService.verify tok cfg.refresh_secret now = .ok p ∧
      UsersService.findUserById users p.id = .ok user ∧
      r = { accessToken :=
              JwtService.sign ⟨user.id, user.email⟩ cfg.access_secret accessTtl now } ∧
      JwtService.verify r.accessToken cfg.access_secret now = .ok ⟨user.id, user.email⟩ := by
  unfold AuthService.refreshToken at h
  split at h
  · exact Except.noConfusion h
  next p hp =>
    split at h
    · exact Except.noConfusion h
    next user huser =>
      injection h with h
      subst h
      refine ⟨p, user, hp, huser, rfl, ?_⟩
      unfold JwtService.verify JwtService.sign
      simp [accessTtl]

/-- Witness for C4 at a concrete successful refresh. -/
theorem refresh_success_shape_witness :
    ∃ p user,
      JwtService.verify (JwtService.sign ⟨1, "test@example.com"⟩ cfg0.refresh_secret refreshTtl 0)
        cfg0.refresh_secret 9 = .ok p ∧
      UsersService.findUserById users0 p.id = .ok user ∧
      ({ accessToken := JwtService.sign ⟨1, "test@example.com"⟩ cfg0.access_secret accessTtl 9 }
          : RefreshResult) =
        { accessToken := JwtService.sign ⟨user.id, user.email⟩ cfg0.access_secret accessTtl 9 } ∧
      JwtService.verify
          ({ accessToken := JwtService.sign ⟨1, "test@example.com"⟩ cfg0.access_secret accessTtl 9 }
            : RefreshResult).accessToken cfg0.access_secret 9 = .ok ⟨user.id, user.email⟩ :=
  refresh_success_shape users0 cfg0 9
    (JwtService.sign ⟨1, "test@example.com"⟩ cfg0.refresh_secret refreshTtl 0)
    { accessToken := JwtService.sign ⟨1, "test@example.com"⟩ cfg0.access_secret accessTtl 9 }
    (by decide)

/-- C5: when the access and refresh secrets differ, a token signed under
one never verifies under the other, at any payload, ttl, issue time and
clock; and a refresh call presented with an access-secret token gives
exactly the same result as a refresh call presented with an arbitrary
garbage string, namely the uniform UnauthorizedException. -/
theorem cross_secret_rejection (cfg : ConfigProps)
    (hne : cfg.access_secret ≠ cfg.refresh_secret) :
    (∀ (p : Payload) (ttl iat now : Nat),
      JwtService.verify (JwtService.sign p cfg.access_secret ttl iat)
        cfg.refresh_secret now = .error .invalidSignature) ∧
    (∀ (p : Payload) (ttl iat now : Nat),
      JwtService.verify (JwtService.sign p cfg.refresh_secret ttl iat)
        cfg.access_secret now = .error .invalidSignature) ∧
    (∀ (users : List UserEntity) (now : Nat) (p : Payload) (ttl iat : Nat) (s : String),
      AuthService.refreshToken users cfg now (JwtService.sign p cfg.access_secret ttl iat) =
        AuthService.refreshToken users cfg now (.garbage s) ∧
      AuthService.refreshToken users cfg now (.garbage s) =
        .error (.unauthorized "Invalid refresh token")) := by
  have hverify : ∀ (p : Payload) (ttl iat now : Nat),
      JwtService.verify (JwtService.sign p cfg.access_secret ttl iat)
        cfg.refresh_secret now = .error .invalidSignature := by
    intro p ttl iat now
    unfold JwtService.verify JwtService.sign
    simp [hne]
  have hne2 : cfg.refresh_secret ≠ cfg.access_secret := fun h => hne h.symm
  refine ⟨hverify, ?_, ?_⟩
  · intro p ttl iat now
    unfold JwtService.verify JwtService.sign
    simp [hne2]
  · intro users now p ttl iat s
    constructor
    · unfold AuthService.refreshToken
      rw [hverify p ttl iat now]
      rfl
    · unfold AuthService.refreshToken JwtService.verify
      rfl

/-- Witness for C5 at the concrete configuration, whose two secrets
differ. -/
theorem cross_secret_rejection_witness :
    JwtService.verify (JwtService.sign ⟨1, "test@example.com"⟩ cfg0.access_secret 60 0)
      cfg0.refresh_secret 0 = .error .invalidSignature :=
  (cross_secret_rejection cfg0 (by decide)).1 ⟨1, "test@example.com"⟩ 60 0 0

/-- C6: verifying a token signed with a secret under that same secret
reproduces the payload exactly while the clock is before the issue time
plus the ttl, and fails with the expired error once the issue time plus
the ttl has passed. -/
theorem jwt_roundtrip_and_expiry (p : Payload) (secret : String) (ttl iat now : Nat) :
    (now < iat + ttl →
      JwtService.verify (JwtService.sign p secret ttl iat) secret now = .ok p) ∧
    (iat + ttl ≤ now →
      JwtService.verify (JwtService.sign p secret ttl iat) secret now = .error .expired) := by
  constructor
  · intro hlt
    unfold JwtService.verify JwtService.sign
    simp [Nat.not_le.mpr hlt]
  · intro hle
    unfold JwtService.verify JwtService.sign
    simp [hle]

/-- Witness for C6: the round trip at a fresh token and the expiry right
after the ttl elapses. -/
theorem jwt_roundtrip_and_expiry_witness :
    JwtService.verify (JwtService.sign ⟨1, "test@example.com"⟩ "s" 60 100) "s" 120 =
      .ok ⟨1, "test@example.com"⟩ ∧
    JwtService.verify (JwtService.sign ⟨1, "test@example.com"⟩ "s" 60 100) "s" 160 =
      .error .expired :=
  ⟨(jwt_roundtrip_and_expiry ⟨1, "test@example.com"⟩ "s" 60 100 120).1 (by decide),
   (jwt_roundtrip_and_expiry ⟨1, "test@example.com"⟩ "s" 60 100 160).2 (by decide)⟩

/-- C9: updating or removing a todo by id fails with NotFoundException
when no row has that id, and when a row with that id exists both succeed
with no comparison of the row user_id against the caller identity: in
particular they succeed even for a caller whose id differs from the row
user_id, so any authenticated user can mutate any other user todo by id. -/
theorem todo_mutation_no_ownership (todos : List TodoEntity) (id : Nat)
    (dto : UpdateTodoDto) (caller : Payload) :
    (todos.find? (fun t => t.id == id) = none →
      TodosService.update todos id dto = .error (.notFound "Todo not found") ∧
      TodosService.remove todos id = .error (.notFound "Todo not found")) ∧
    (∀ t, todos.find? (fun t => t.id == id) = some t → t.user_id ≠ caller.id →
      (∃ res, TodosService.update todos id dto = .ok res) ∧
      (∃ res, TodosService.remove todos id = .ok res)) := by
  constructor
  · intro hnone
    constructor
    · unfold TodosService.update
      rw [hnone]
    · unfold TodosService.remove
      rw [hnone]
  · intro t hsome _
    constructor
    · unfold TodosService.update
      rw [hsome]
      exact ⟨_, rfl⟩
    · unfold TodosService.remove
      rw [hsome]
      exact ⟨_, rfl⟩

/-- Witness for C9: a caller with id 2 updating and removing the todo of
user 1, and the NotFound case at an absent id. -/
theorem todo_mutation_no_ownership_witness :
    (TodosService.update todos0 99 { title := none, description := none } =
        .error (.notFound "Todo not found") ∧
      TodosService.remove todos0 99 = .error (.notFound "Todo not found")) ∧
    ((∃ res, TodosService.update todos0 5 { title := none, description := none } = .ok res) ∧
      (∃ res, TodosService.remove todos0 5 = .ok res)) :=
  ⟨(todo_mutation_no_ownership todos0 99 { title := none, description := none }
      ⟨2, "eve@example.com"⟩).1 (by decide),
   (todo_mutation_no_ownership todos0 5 { title := none, description := none }
      ⟨2, "eve@example.com"⟩).2
      { id := 5, title := "t", description := "d", user_id := 1, created_at := 0 }
      (by decide) (by decide)⟩

/-- Counterexample for C7: a handler result carrying a present but falsy
message field and a present but falsy data field is not wrapped as the
literal reading of the claim says: the interceptor emits message Success
and the whole result object, not the empty message and the number 0. -/
theorem interceptor_success_envelope_cex :
    ResponseInterceptor.onSuccess .vUndefined (.vNum 200)
        (.vObj (.cons "message" (.vStr "") (.cons "data" (.vNum 0) .nil))) ≠
      .ok (claimedSuccessEnvelope (.vNum 200)
        (.vObj (.cons "message" (.vStr "") (.cons "data" (.vNum 0) .nil)))) := by
  decide

/-- C7 amended: with response locals carrying no message, for every
non-null, non-undefined handler result and every response status that is
either unset or truthy, the interceptor emits exactly the claimed success
envelope with the truthiness-aware field precedence. -/
theorem interceptor_success_envelope (respStatus result : JSValue)
    (hres : result ≠ .vNull) (hres2 : result ≠ .vUndefined)
    (hst : respStatus = .vUndefined ∨ respStatus.truthy = true) :
    ResponseInterceptor.onSuccess .vUndefined respStatus result =
      .ok (claimedSuccessEnvelopeTruthy respStatus result) := by
  have hstatus : jsOr respStatus (JSValue.vNum 200) =
      (if respStatus = JSValue.vUndefined then JSValue.vNum 200 else respStatus) := by
    rcases hst with h | h
    · subst h; rfl
    · have hne : respStatus ≠ JSValue.vUndefined := by
        intro hh
        rw [hh] at h
        exact absurd h (by decide)
      simp [jsOr, h, hne]
  cases result with
  | vNull => exact absurd rfl hres
  | vUndefined => exact absurd rfl hres2
  | vBool b =>
    simp [ResponseInterceptor.onSuccess, claimedSuccessEnvelopeTruthy, JSValue.get,
      JSValue.getOpt, JSValue.fieldOf, truthyField, jsAnd, jsNot, ← hstatus, jsOr,
      JSValue.truthy]
  | vNum n =>
    simp [ResponseInterceptor.onSuccess, claimedSuccessEnvelopeTruthy, JSValue.get,
      JSValue.getOpt, JSValue.fieldOf, truthyField, jsAnd, jsNot, ← hstatus, jsOr,
      JSValue.truthy]
  | vStr s =>
    simp [ResponseInterceptor.onSuccess, claimedSuccessEnvelopeTruthy, JSValue.get,
      JSValue.getOpt, JSValue.fieldOf, truthyField, jsAnd, jsNot, ← hstatus, jsOr,
      JSValue.truthy]
  | vObj fs =>
    rcases hm : fs.lookup "message" with _ | m <;>
      rcases hd : fs.lookup "data" with _ | d
    · simp [ResponseInterceptor.onSuccess, claimedSuccessEnvelopeTruthy, JSValue.get,
        JSValue.getOpt, JSValue.fieldOf, truthyField, hm, hd, jsAnd, jsNot, ← hstatus,
        jsOr, JSValue.truthy]
    · cases hdt : d.truthy <;>
      · simp only [JSValue.truthy] at hdt
        simp [ResponseInterceptor.onSuccess, claimedSuccessEnvelopeTruthy, JSValue.get,
          JSValue.getOpt, JSValue.fieldOf, truthyField, hm, hd, hdt, jsAnd, jsNot,
          ← hstatus, jsOr, JSValue.truthy]
    · cases hmt : m.truthy <;>
      · simp only [JSValue.truthy] at hmt
        simp [ResponseInterceptor.onSuccess, claimedSuccessEnvelopeTruthy, JSValue.get,
          JSValue.getOpt, JSValue.fieldOf, truthyField, hm, hd, hmt, jsAnd, jsNot,
          ← hstatus, jsOr, JSValue.truthy]
    · cases hmt : m.truthy <;> cases hdt : d.truthy <;>
      · simp only [JSValue.truthy] at hmt hdt
        simp [ResponseInterceptor.onSuccess, claimedSuccessEnvelopeTruthy, JSValue.get,
          JSValue.getOpt, JSValue.fieldOf, truthyField, hm, hd, hmt, hdt, jsAnd, jsNot,
          ← hstatus, jsOr, JSValue.truthy]

/-- Witness for C7 amended at a concrete handler result carrying data and
meta sub-fields. -/
theorem interceptor_success_envelope_witness :
    ResponseInterceptor.onSuccess .vUndefined (.vNum 200)
        (.vObj (.cons "data" (.vStr "payload") (.cons "meta" (.vNum 3) .nil))) =
      .ok (claimedSuccessEnvelopeTruthy (.vNum 200)
        (.vObj (.cons "data" (.vStr "payload") (.cons "meta" (.vNum 3) .nil)))) :=
  interceptor_success_envelope (.vNum 200)
    (.vObj (.cons "data" (.vStr "payload") (.cons "meta" (.vNum 3) .nil)))
    (by decide) (by decide) (Or.inr (by decide))

/-- Counterexample for C8: a thrown failure with a falsy status code, an
empty own message and an empty kind name is not normalized as the literal
reading of the claim says: the interceptor emits 500, the fixed fallback
message and the fixed fallback error kind instead of the present falsy
fields. -/
theorem interceptor_error_envelope_cex :
    ResponseInterceptor.onError
        (.vObj (.cons "status" (.vNum 0)
          (.cons "message" (.vStr "") (.cons "name" (.vStr "") .nil)))) ≠
      claimedErrorEnvelope
        (.vObj (.cons "status" (.vNum 0)
          (.cons "message" (.vStr "") (.cons "name" (.vStr "") .nil)))) := by
  decide

/-- C8 amended: for every thrown failure value, whatever component raised
it, the emitted error envelope is exactly the claimed one with each
fallback following truthiness, and its data is always null. -/
theorem interceptor_error_envelope (e : JSValue) :
    ResponseInterceptor.onError e = claimedErrorEnvelopeTruthy e ∧
    (ResponseInterceptor.onError e).data = .vNull := by
  have hmain : ResponseInterceptor.onError e = claimedErrorEnvelopeTruthy e := by
    unfold ResponseInterceptor.onError claimedErrorEnvelopeTruthy
    simp only [getOpt_eq_fieldOf, truthyField_eq]
    rw [jsOr3_cases, jsOr3_cases]
    rfl
  refine ⟨hmain, ?_⟩
  rw [hmain]
  rfl

/-- C10: the success path of the interceptor reads the message property of
the handler result with no null guard: on a null or undefined result it
throws a TypeError and no envelope is produced, and on every other result
it produces a success envelope. -/
theorem success_path_totality :
    (∀ lm rs : JSValue, ResponseInterceptor.onSuccess lm rs .vNull = .error .typeError) ∧
    (∀ lm rs : JSValue, ResponseInterceptor.onSuccess lm rs .vUndefined = .error .typeError) ∧
    (∀ lm rs data : JSValue, data ≠ .vNull → data ≠ .vUndefined →
      ∃ env, ResponseInterceptor.onSuccess lm rs data = .ok env) := by
  refine ⟨fun lm rs => rfl, fun lm rs => rfl, ?_⟩
  intro lm rs data h1 h2
  cases data with
  | vNull => exact absurd rfl h1
  | vUndefined => exact absurd rfl h2
  | vBool b => exact ⟨_, rfl⟩
  | vNum n => exact ⟨_, rfl⟩
  | vStr s => exact ⟨_, rfl⟩
  | vObj fs => exact ⟨_, rfl⟩

/-- Witness for C10 at a concrete non-null handler result. -/
theorem success_path_totality_witness :
    ∃ env, ResponseInterceptor.onSuccess .vUndefined (.vNum 200) (.vStr "ok") = .ok env :=
  success_path_totality.2.2 .vUndefined (.vNum 200) (.vStr "ok") (by decide) (by decide)

example :
    ResponseInterceptor.onSuccess .vUndefined (.vNum 200)
      (.vObj (.cons "message" (.vStr "hi") .nil)) =
    .ok ⟨.vNum 200, .vStr "hi", .vUndefined, .vUndefined⟩ := by decide

example :
    ResponseInterceptor.onError (.vObj (.cons "status" (.vNum 401)
      (.cons "message" (.vStr "Invalid refresh token")
        (.cons "name" (.vStr "UnauthorizedException") .nil)))) =
    ⟨.vNum 401, .vStr "Invalid refresh token", .vStr "UnauthorizedException", .vNull⟩ := by
  decide
